import Mathlib

/-!
Verification development for the Financial-Decision-Support-System repository.

The Python sources (`financial_data.py`, `preference_engine.py`,
`query_data_dss.py`) are shallowly embedded below.  Conventions:

* Python floats are modelled as exact rationals (`ℚ`).  A float `NaN`
  arising from a degenerate statistic (standard deviation of fewer than two
  samples, minimum of an empty series) is modelled as `Option.none`; IEEE
  comparisons with `NaN` are always false, which the embedding reproduces by
  explicit `none` branches.
* Annualized volatility is `std * sqrt 252 * 100`, an irrational number; the
  embedding carries its square (`volatilitySq`), which is rational, and all
  threshold comparisons are carried out against squared thresholds
  (`vol < c ↔ vol² < c²` for the nonnegative values involved).
* Python's decimal `round(x, n)` (round-half-to-even) is modelled exactly on
  rationals by `pyRound`.  Python's `str.strip`, `str.split('\n')`,
  `str.lower` and the `in` substring test are modelled by the executable
  `pyStrip`, `pyLines`, `pyLower` and `hasSub`.
* Decimal rendering of numbers inside f-strings (`str(x)`, `f"{x:+.2f}"`,
  `f"{x:.1f}"`) is abstracted by the total functions `fmtNum`, `fmtPlus2`,
  `fmtDot1`, `fmtDot2`; no theorem below depends on the digits they produce,
  only on the fixed text surrounding them.
* External collaborators (yfinance, the SPY benchmark fetch, ChromaDB
  search, the Ollama and HuggingFace backends) enter as explicit `Option`
  parameters: `none` models "service unavailable / raised an exception".
-/

namespace FinDSS

/-! ### Python primitives modelled on rationals and char lists -/

/-- Arithmetic mean, `np.mean` / `pandas.Series.mean` (division by zero on an
empty list yields `0` in `ℚ`; every use below guards the length). -/
def pyMean (xs : List ℚ) : ℚ := xs.sum / (xs.length : ℚ)

/-- Sample covariance with `ddof = 1`, the default of `np.cov(x, y)[0][1]`. -/
def npCov (xs ys : List ℚ) : ℚ :=
  ((xs.zip ys).map fun p => (p.1 - pyMean xs) * (p.2 - pyMean ys)).sum /
    ((xs.length : ℚ) - 1)

/-- Population variance with `ddof = 0`, the default of `np.var`. -/
def npVar (ys : List ℚ) : ℚ :=
  (ys.map fun y => (y - pyMean ys) ^ 2).sum / (ys.length : ℚ)

/-- Sample variance with `ddof = 1` (the square of `pandas.Series.std`).
`none` models the `NaN` that pandas returns for fewer than two samples. -/
def sampleVar (xs : List ℚ) : Option ℚ :=
  if xs.length < 2 then none
  else some ((xs.map fun x => (x - pyMean xs) ^ 2).sum / ((xs.length : ℚ) - 1))

/-- Python's built-in `round(q, nd)`: round half to even at `nd` decimal
places, computed exactly on rationals. -/
def pyRound (q : ℚ) (nd : ℕ) : ℚ :=
  let m : ℚ := (10 : ℚ) ^ nd
  let x := q * m
  let f : ℤ := ⌊x⌋
  let frac := x - (f : ℚ)
  let r : ℤ :=
    if frac < 1 / 2 then f
    else if frac > 1 / 2 then f + 1
    else if f % 2 = 0 then f else f + 1
  (r : ℚ) / m

/-- Characters stripped from both ends, `str.strip()` on a char list. -/
def pyStripChars (l : List Char) : List Char :=
  ((l.dropWhile Char.isWhitespace).reverse.dropWhile Char.isWhitespace).reverse

/-- Python `str.strip()`. -/
def pyStrip (s : String) : String := String.mk (pyStripChars s.data)

/-- Split a char list at every occurrence of `c`, Python `str.split(c)`
semantics (an empty string yields `[[]]`, separators are not kept). -/
def splitOnChar (c : Char) : List Char → List (List Char)
  | [] => [[]]
  | x :: xs =>
    match splitOnChar c xs with
    | [] => [[]]
    | h :: t => if x = c then [] :: h :: t else (x :: h) :: t

/-- Python `prompt.split('\n')`. -/
def pyLines (s : String) : List String := (splitOnChar '\n' s.data).map String.mk

/-- Boolean test that `pat` starts the list `l`. -/
def leadsChars : List Char → List Char → Bool
  | [], _ => true
  | _ :: _, [] => false
  | a :: as, b :: bs => a == b && leadsChars as bs

/-- Boolean substring test on char lists. -/
def hasSubChars (pat : List Char) : List Char → Bool
  | [] => pat.isEmpty
  | x :: xs => leadsChars pat (x :: xs) || hasSubChars pat xs

/-- Python's `pat in s` substring test. -/
def hasSub (s pat : String) : Bool := hasSubChars pat.data s.data

/-- Lower-case a single ASCII character, Python `str.lower` on one char. -/
def pyLowerChar (c : Char) : Char :=
  if 'A' ≤ c ∧ c ≤ 'Z' then Char.ofNat (c.toNat + 32) else c

/-- Python `str.lower()` (ASCII range, which covers every string it is
applied to in the sources). -/
def pyLower (s : String) : String := String.mk (s.data.map pyLowerChar)

/-- Rendering of a Python float by `str` inside an f-string, abstracted to
`toString` on `ℚ`; no theorem depends on the produced digits. -/
def fmtNum (q : ℚ) : String := toString q

/-- Rendering by `f"{x:+.2f}"`: an explicit sign followed by digits. -/
def fmtPlus2 (q : ℚ) : String := (if 0 ≤ q then "+" else "") ++ toString q

/-- Rendering by `f"{x:.1f}"`, abstracted like `fmtNum`. -/
def fmtDot1 (q : ℚ) : String := toString q

/-- Rendering by `f"{x:.2f}"`, abstracted like `fmtNum`. -/
def fmtDot2 (q : ℚ) : String := toString q

/-! ### financial_data.py — the Metrics Engine

`FinancialDataProvider._compute_risk_metrics`, `_compute_performance`,
`_analyze_trends`, `get_stock_summary`, `format_for_llm` and
`_get_volatility_context` are embedded here.  A price history is a list of
`(date, close)` pairs with integer date keys (pandas `DatetimeIndex`
abstracted to `ℤ`), chronologically ordered. -/

/-- The dated daily percentage returns,
`hist['Close'].pct_change().dropna()`: each return keeps the date of its
later price. -/
def pctChangeDated (s : List (ℤ × ℚ)) : List (ℤ × ℚ) :=
  (s.zip (s.drop 1)).map fun p => (p.2.1, p.2.2 / p.1.2 - 1)

/-- Undated daily percentage returns of a close-price list. -/
def pctChange (prices : List ℚ) : List ℚ :=
  (prices.zip (prices.drop 1)).map fun p => p.2 / p.1 - 1

/-- The series `(1 + returns).cumprod()`. -/
def cumulativeReturns (returns : List ℚ) : List ℚ :=
  ((returns.map fun r => 1 + r).scanl (· * ·) 1).drop 1

/-- The series `cumulative.expanding().max()`. -/
def runningMax : List ℚ → List ℚ
  | [] => []
  | x :: xs => xs.scanl max x

/-- The drawdown series `(cumulative - running_max) / running_max`. -/
def drawdownSeries (returns : List ℚ) : List ℚ :=
  let cum := cumulativeReturns returns
  ((cum.zip (runningMax cum)).map fun p => (p.1 - p.2) / p.2)

/-- The recovery-episode scan of `_compute_risk_metrics` (lines 91-102): an
episode opens when drawdown first falls below −5% and closes, contributing
its length, when drawdown recovers to within −1%. -/
def recoveryScan : List ℚ → ℕ → Bool → ℕ → List ℕ
  | [], _, _, _ => []
  | v :: rest, i, inDD, start =>
    if v < -(5 / 100) ∧ inDD = false then recoveryScan rest (i + 1) true i
    else if -(1 / 100) ≤ v ∧ inDD = true then
      (i - start) :: recoveryScan rest (i + 1) false start
    else recoveryScan rest (i + 1) inDD start

/-- Recovery episode lengths of a drawdown series. -/
def recoveryPeriods (dd : List ℚ) : List ℕ := recoveryScan dd 0 false 0

/-- The `avg_recovery_days` field: `int(np.mean(recovery_periods))` when any
episode closed, else `None` (`int` truncation equals `⌊·⌋` on these
nonnegative means). -/
def avgRecoveryDays (dd : List ℚ) : Option ℤ :=
  let rp := recoveryPeriods dd
  if rp.isEmpty then none else some ⌊pyMean (rp.map fun n => (n : ℚ))⌋

/-- The pandas `series.reindex(idx).dropna()` on a date-keyed series. -/
def reindexDropna (s : List (ℤ × ℚ)) (idx : List ℤ) : List (ℤ × ℚ) :=
  idx.filterMap fun d => (s.lookup d).map fun v => (d, v)

/-- The two date-aligned value lists of `_compute_risk_metrics` lines 81-82:
the stock returns reindexed on the benchmark dates, and the benchmark
returns reindexed back on the surviving dates. -/
def alignedPair (returns marketReturns : List (ℤ × ℚ)) : List ℚ × List ℚ :=
  let ar := reindexDropna returns (marketReturns.map Prod.fst)
  let am := reindexDropna marketReturns (ar.map Prod.fst)
  (ar.map Prod.snd, am.map Prod.snd)

/-- The raw beta of `_compute_risk_metrics` lines 77-86 once the benchmark
close series is available: `covariance / market_variance` when the variance
is positive, else the literal `1.0`. -/
def betaRawOf (returns : List (ℤ × ℚ)) (spyClose : List (ℤ × ℚ)) : ℚ :=
  let marketReturns := pctChangeDated spyClose
  let pr := alignedPair returns marketReturns
  if npVar pr.2 > 0 then npCov pr.1 pr.2 / npVar pr.2 else 1

/-- The stored `beta` dict entry, `round(beta, 2) if beta else None`:
`none` when the benchmark fetch failed (`spy = none`, the `except` branch)
or when the raw beta is exactly `0.0` (Python falsiness). -/
def betaField (returns : List (ℤ × ℚ)) (spy : Option (List (ℤ × ℚ))) : Option ℚ :=
  match spy with
  | none => none
  | some s =>
    let b := betaRawOf returns s
    if b = 0 then none else some (pyRound b 2)

/-- The square of the annualized volatility
`returns.std() * sqrt 252 * 100`; `none` models the `NaN` produced by
`pandas.Series.std` on fewer than two returns. -/
def volatilitySq (returns : List ℚ) : Option ℚ :=
  (sampleVar returns).map fun v => v * 252 * 10000

/-- The risk-classification chain of `_compute_risk_metrics` lines 107-112
as a function of the volatility value. -/
def riskClassOfVol (v : ℚ) : String :=
  if v < 15 then "Low" else if v < 25 then "Moderate" else "High"

/-- The same classification chain applied to the squared volatility
(`vol < 15 ↔ vol² < 225`, `vol < 25 ↔ vol² < 625`).  A `NaN` volatility
(`none`) makes both `<` comparisons false, so Python reaches the `else`
branch and classifies as `"High"`. -/
def riskClassOfVolSq : Option ℚ → String
  | none => "High"
  | some v2 => if v2 < 225 then "Low" else if v2 < 625 then "Moderate" else "High"

/-- The dict returned by `_compute_risk_metrics`. -/
structure RiskOut where
  volatilitySq : Option ℚ
  max_drawdown : Option ℚ
  beta : Option ℚ
  avg_recovery_days : Option ℤ
  risk_classification : String
  sharp_moves_count : ℕ
  deriving Repr, DecidableEq

/-- `FinancialDataProvider._compute_risk_metrics`.  `hist` carries the dated
close prices; `spy` is the benchmark close series, `none` when the SPY fetch
raised.  The stored `volatility_annual` and `max_drawdown` round their
values to one decimal; the irrational `volatility_annual` is carried as its
square, unrounded. -/
def compute_risk_metrics (hist : List (ℤ × ℚ)) (spy : Option (List (ℤ × ℚ))) :
    RiskOut :=
  let returnsD := pctChangeDated hist
  let returns := returnsD.map Prod.snd
  let volSq := volatilitySq returns
  let dd := drawdownSeries returns
  { volatilitySq := volSq
    max_drawdown := dd.min?.map fun m => pyRound (m * 100) 1
    beta := betaField returnsD spy
    avg_recovery_days := avgRecoveryDays dd
    risk_classification := riskClassOfVolSq volSq
    sharp_moves_count := (returns.filter fun r => |r| > 5 / 100).length }

/-- The trailing-window return of `_compute_performance` lines 136-141:
`round(((prices.iloc[-1] / prices.iloc[-days]) - 1) * 100, 2)` when at least
`days` prices exist, else `None`. -/
def trailingReturn (prices : List ℚ) (days : ℕ) : Option ℚ :=
  if days ≤ prices.length then
    some (pyRound ((prices.getD (prices.length - 1) 0 /
      prices.getD (prices.length - days) 0 - 1) * 100) 2)
  else none

/-- The dict returned by `_compute_performance`. -/
structure PerfOut where
  return_1m : Option ℚ
  return_3m : Option ℚ
  return_6m : Option ℚ
  return_1y : Option ℚ
  vs_sp500_1y : Option ℚ
  deriving Repr, DecidableEq

/-- `FinancialDataProvider._compute_performance`; `spy` is the benchmark
close series, `none` when the SPY fetch raised. -/
def compute_performance (prices : List ℚ) (spy : Option (List ℚ)) : PerfOut :=
  { return_1m := trailingReturn prices 21
    return_3m := trailingReturn prices 63
    return_6m := trailingReturn prices 126
    return_1y := trailingReturn prices 252
    vs_sp500_1y :=
      match spy with
      | none => none
      | some s =>
        if 252 ≤ s.length ∧ 252 ≤ prices.length then
          some (pyRound
            ((prices.getD (prices.length - 1) 0 /
                prices.getD (prices.length - 252) 0 - 1) * 100 -
              (s.getD (s.length - 1) 0 / s.getD (s.length - 252) 0 - 1) * 100) 2)
        else none }

/-- The dict returned by `_analyze_trends`. -/
structure TrendOut where
  price_trend_3m : String
  volume_trend : String
  position_vs_50day_avg : String
  deriving Repr, DecidableEq

/-- `FinancialDataProvider._analyze_trends`. -/
def analyze_trends (prices volume : List ℚ) : TrendOut :=
  { price_trend_3m :=
      if 126 ≤ prices.length then
        let recent := pyMean (prices.drop (prices.length - 63))
        let prior := pyMean ((prices.drop (prices.length - 126)).take 63)
        if recent > prior * (105 / 100) then "rising"
        else if recent < prior * (95 / 100) then "declining"
        else "stable"
      else "insufficient_data"
    volume_trend :=
      if 63 ≤ volume.length then
        let recent := pyMean (volume.drop (volume.length - 21))
        let prior := pyMean ((volume.drop (volume.length - 63)).take 42)
        if recent > prior * (12 / 10) then "increasing"
        else if recent < prior * (8 / 10) then "decreasing"
        else "stable"
      else "insufficient_data"
    position_vs_50day_avg :=
      if 50 ≤ prices.length then
        let sma := pyMean (prices.drop (prices.length - 50))
        let current := prices.getD (prices.length - 1) 0
        if current > sma * (102 / 100) then "above"
        else if current < sma * (98 / 100) then "below"
        else "near"
      else "insufficient_data" }

/-! ### financial_data.py — the Narrative Formatter

`format_for_llm` consumes the summary dict built by `get_stock_summary`.
The records below are that dict's shape as the formatter reads it; `Option`
fields are the nullable entries, and the `beta` / `avg_recovery_days` lines
reproduce Python truthiness (`if risk['beta']:`), under which both `None`
and `0` suppress the line. -/

/-- The `basic_info` sub-dict. -/
structure BasicInfo where
  sector : String
  industry : String
  current_price : ℚ
  dividend_yield : ℚ
  market_cap : String
  deriving Repr, DecidableEq

/-- The `risk_metrics` sub-dict as the formatter reads it. -/
structure RiskView where
  volatility_annual : ℚ
  max_drawdown : ℚ
  beta : Option ℚ
  avg_recovery_days : Option ℤ
  risk_classification : String
  sharp_moves_count : ℕ
  deriving Repr, DecidableEq

/-- The summary dict built by `get_stock_summary`. -/
structure StockSummary where
  ticker : String
  period : String
  fetch_date : String
  basic_info : BasicInfo
  risk_metrics : RiskView
  performance : PerfOut
  trends : TrendOut
  deriving Repr, DecidableEq

/-- `FinancialDataProvider._get_volatility_context`. -/
def get_volatility_context (volatility : ℚ) (risk_tolerance : String) : String :=
  if risk_tolerance = "Low" then
    if volatility < 15 then
      "This low volatility suggests stable price behavior suitable for conservative portfolios"
    else if volatility < 25 then
      "This moderate volatility indicates notable price fluctuations that may exceed conservative risk thresholds"
    else
      "This high volatility represents substantial price swings and significant downside risk"
  else if risk_tolerance = "High" then
    if volatility < 15 then
      "This low volatility limits potential for outsized returns but provides stability"
    else if volatility < 25 then
      "This moderate volatility offers balanced opportunity for returns with manageable swings"
    else
      "This high volatility creates opportunities for significant returns during favorable market conditions"
  else
    if volatility < 15 then
      "This low volatility provides predictable behavior with limited downside"
    else if volatility < 25 then
      "This moderate volatility is typical for diversified portfolios seeking balanced growth"
    else
      "This high volatility exceeds typical balanced portfolio thresholds"

/-- One appended line guarded by `is not None`. -/
def optLine (o : Option ℚ) (f : ℚ → String) : List String :=
  match o with
  | some v => [f v]
  | none => []

/-- One appended line guarded by Python truthiness of a nullable float. -/
def truthyQLine (o : Option ℚ) (f : ℚ → String) : List String :=
  match o with
  | some v => if v = 0 then [] else [f v]
  | none => []

/-- One appended line guarded by Python truthiness of a nullable int. -/
def truthyZLine (o : Option ℤ) (f : ℤ → String) : List String :=
  match o with
  | some v => if v = 0 then [] else [f v]
  | none => []

/-- The header block of `format_for_llm` (lines 234-235). -/
def headerSections (s : StockSummary) : List String :=
  ["=== STOCK PROFILE: " ++ (s.ticker ++ " ==="),
   "Analysis Period: " ++ (s.period ++ (" ending " ++ (s.fetch_date ++ "\n")))]

/-- The basic-information block (lines 238-245). -/
def basicSections (b : BasicInfo) : List String :=
  ["BASIC INFORMATION:",
   "  Sector: " ++ b.sector,
   "  Industry: " ++ b.industry,
   "  Current Price: $" ++ fmtNum b.current_price] ++
  (if b.dividend_yield > 0 then
    ["  Dividend Yield: " ++ (fmtNum b.dividend_yield ++ "%")] else []) ++
  [""]

/-- The risk block (lines 248-268); `risk_tol` is
`preferences.get('risk_tolerance', 'Medium')`. -/
def riskSections (r : RiskView) (risk_tol : String) : List String :=
  ["RISK CHARACTERISTICS:",
   "  Annualized Volatility: " ++
     (fmtNum r.volatility_annual ++ ("% (" ++ (r.risk_classification ++ " risk)"))),
   "  Context: " ++ get_volatility_context r.volatility_annual risk_tol,
   "  Maximum Drawdown (period): " ++ (fmtNum r.max_drawdown ++ "%")] ++
  truthyQLine r.beta (fun b => "  Beta (market sensitivity): " ++ fmtNum b) ++
  truthyZLine r.avg_recovery_days
    (fun d => "  Average Recovery Time: " ++ (toString d ++ " days")) ++
  ["  Sharp Moves (>5%): " ++ (toString r.sharp_moves_count ++ " days"), ""]

/-- The performance block (lines 271-284). -/
def perfSections (p : PerfOut) : List String :=
  ["HISTORICAL PERFORMANCE:"] ++
  optLine p.return_1m (fun v => "  1-Month Return: " ++ (fmtPlus2 v ++ "%")) ++
  optLine p.return_3m (fun v => "  3-Month Return: " ++ (fmtPlus2 v ++ "%")) ++
  optLine p.return_1y (fun v => "  1-Year Return: " ++ (fmtPlus2 v ++ "%")) ++
  optLine p.vs_sp500_1y (fun v => "  vs. S&P 500: " ++
    ((if v > 0 then "outperformed" else "underperformed") ++
      (" by " ++ (fmtDot2 |v| ++ "%")))) ++
  [""]

/-- The trends block (lines 287-291). -/
def trendSections (t : TrendOut) : List String :=
  ["RECENT TRENDS:",
   "  3-Month Price Trend: " ++ t.price_trend_3m,
   "  Volume Trend: " ++ t.volume_trend,
   "  Position vs 50-Day Average: " ++ t.position_vs_50day_avg]

/-- The full `sections` list built by `format_for_llm`. -/
def format_sections (s : StockSummary) (preferences : List (String × String)) :
    List String :=
  headerSections s ++ basicSections s.basic_info ++
  riskSections s.risk_metrics ((preferences.lookup "risk_tolerance").getD "Medium") ++
  perfSections s.performance ++ trendSections s.trends

/-- `FinancialDataProvider.format_for_llm`: the joined narrative, or the
fixed apology when the summary is `None`. -/
def format_for_llm : Option StockSummary → List (String × String) → String
  | none, _ => "Unable to fetch stock data."
  | some s, preferences => String.intercalate "\n" (format_sections s preferences)

/-! ### preference_engine.py — the Preference Interpreter -/

/-- The engine's three stored preference axes. -/
structure PreferenceEngine where
  risk_tolerance : String
  time_horizon : String
  risk_behavior : String
  deriving Repr, DecidableEq

/-- One entry of `self.volatility_frames`. -/
structure VolFrame where
  emphasis : String
  concern_language : String
  positive_language : String
  threshold_view : String
  deriving Repr, DecidableEq

/-- One entry of `self.time_frames`. -/
structure TimeFrame where
  data_focus : String
  volatility_impact : String
  recovery_concern : String
  relevant_metrics : String
  deriving Repr, DecidableEq

/-- One entry of `self.behavior_frames`. -/
structure BehaviorFrame where
  perspective : String
  decision_frame : String
  uncertainty_view : String
  trade_off_priority : String
  deriving Repr, DecidableEq

/-- The `volatility_frames` dict; `none` models a `KeyError` on lookup of a
key outside the three tolerance levels. -/
def volatility_frames (t : String) : Option VolFrame :=
  if t = "Low" then
    some ⟨"downside protection and capital preservation",
      "risk exposure, potential losses, drawdown severity",
      "stability, predictability, preservation",
      "conservative risk bounds"⟩
  else if t = "Medium" then
    some ⟨"balanced growth with managed volatility",
      "portfolio fluctuations, risk-adjusted returns",
      "growth opportunities, reasonable stability",
      "moderate risk tolerance"⟩
  else if t = "High" then
    some ⟨"return potential and growth opportunities",
      "opportunity cost, market dynamics",
      "upside capture, aggressive growth, market opportunities",
      "elevated risk acceptance"⟩
  else none

/-- The `time_frames` dict. -/
def time_frames (h : String) : Option TimeFrame :=
  if h = "Short-term (<1yr)" then
    some ⟨"recent 3-6 month trends and near-term momentum",
      "near-term price fluctuations and liquidity",
      "short recovery windows are critical",
      "recent performance, current trends"⟩
  else if h = "Long-term (>1yr)" then
    some ⟨"multi-year patterns and fundamental stability",
      "long-term trajectory smooths short-term noise",
      "extended recovery periods are acceptable",
      "sustained trends, sector fundamentals"⟩
  else none

/-- The `behavior_frames` dict. -/
def behavior_frames (b : String) : Option BehaviorFrame :=
  if b = "Risk-averse" then
    some ⟨"conservative with emphasis on protection",
      "what could go wrong and how to avoid losses",
      "threats to be mitigated",
      "safety over growth"⟩
  else if b = "Risk-seeking" then
    some ⟨"opportunistic with emphasis on potential",
      "what upside exists and how to capture gains",
      "opportunities to be seized",
      "growth over safety"⟩
  else none

/-- The dict returned by `get_interpretive_context`. -/
structure InterpretiveContext where
  volatility_emphasis : String
  concern_language : String
  positive_language : String
  data_focus : String
  volatility_interpretation : String
  recovery_perspective : String
  analysis_perspective : String
  decision_framing : String
  trade_off_priority : String
  deriving Repr, DecidableEq

/-- `PreferenceEngine.get_interpretive_context`; `none` models the
`KeyError` raised when a stored preference is outside its frame dict. -/
def get_interpretive_context (e : PreferenceEngine) : Option InterpretiveContext :=
  match volatility_frames e.risk_tolerance, time_frames e.time_horizon,
      behavior_frames e.risk_behavior with
  | some vf, some tf, some bf =>
    some ⟨vf.emphasis, vf.concern_language, vf.positive_language,
      tf.data_focus, tf.volatility_impact, tf.recovery_concern,
      bf.perspective, bf.decision_frame, bf.trade_off_priority⟩
  | _, _, _ => none

/-- `PreferenceEngine.get_prompt_guidance`. -/
def get_prompt_guidance (e : PreferenceEngine) : Option String :=
  (get_interpretive_context e).map fun c =>
    "\nPREFERENCE-DRIVEN ANALYSIS GUIDANCE:\n\nRisk Profile Context:\n- The user has " ++
    pyLower e.risk_tolerance ++ " risk tolerance with " ++
    pyLower e.risk_behavior ++ " behavior\n- Frame volatility and uncertainty in terms of: " ++
    c.volatility_emphasis ++ "\n- When discussing risks, emphasize: " ++
    c.concern_language ++ "\n- When discussing opportunities, emphasize: " ++
    c.positive_language ++ "\n- Trade-off priority: " ++
    c.trade_off_priority ++ "\n\nTime Horizon Context:\n- Investment horizon: " ++
    pyLower e.time_horizon ++ "\n- Focus analysis on: " ++
    c.data_focus ++ "\n- Interpret volatility as: " ++
    c.volatility_interpretation ++ "\n- Recovery time perspective: " ++
    c.recovery_perspective ++ "\n\nAnalysis Perspective:\n- Adopt a " ++
    c.analysis_perspective ++ " viewpoint\n- Frame decision considerations around: " ++
    c.decision_framing ++
    "\n\nCRITICAL: These preferences should shape HOW you interpret and present data,\nnot just be restated. For example, the same 25% volatility should be framed\nas \"significant downside risk\" for risk-averse users but \"opportunity for\noutsized returns\" for risk-seeking users. The data is the same; the\ninterpretation changes based on user context.\n"

/-- `PreferenceEngine._interpret_volatility`. -/
def interpretVolatility (risk_tolerance : String) (vol : ℚ) : String :=
  if risk_tolerance = "Low" then
    if vol < 15 then
      fmtNum vol ++ "% volatility indicates stable, predictable behavior aligned with conservative objectives"
    else if vol < 25 then
      fmtNum vol ++ "% volatility suggests price swings that may exceed comfort thresholds for capital preservation"
    else
      fmtNum vol ++ "% volatility represents substantial fluctuation risk unsuitable for conservative portfolios"
  else if risk_tolerance = "High" then
    if vol < 15 then
      fmtNum vol ++ "% volatility suggests limited price movement, constraining potential for aggressive returns"
    else if vol < 25 then
      fmtNum vol ++ "% volatility provides meaningful opportunity for returns while remaining investable"
    else
      fmtNum vol ++ "% volatility creates significant return potential during favorable market phases"
  else
    if vol < 15 then
      fmtNum vol ++ "% volatility indicates low-risk behavior suitable for core holdings"
    else if vol < 25 then
      fmtNum vol ++ "% volatility is typical for balanced growth strategies"
    else
      fmtNum vol ++ "% volatility exceeds typical balanced portfolio guidelines"

/-- `PreferenceEngine._interpret_drawdown`: branches only on
`self.risk_behavior` and the absolute drawdown bands 10 and 20. -/
def interpretDrawdown (risk_behavior : String) (dd : ℚ) : String :=
  if risk_behavior = "Risk-averse" then
    if |dd| < 10 then
      fmtDot1 dd ++ "% maximum drawdown indicates limited downside exposure"
    else if |dd| < 20 then
      fmtDot1 dd ++ "% maximum drawdown represents notable capital risk requiring consideration"
    else
      fmtDot1 dd ++ "% maximum drawdown signals severe downside exposure posing preservation challenges"
  else
    if |dd| < 10 then
      fmtDot1 dd ++ "% maximum drawdown suggests constrained volatility limiting return potential"
    else if |dd| < 20 then
      fmtDot1 dd ++ "% maximum drawdown is typical for growth-oriented investments"
    else
      fmtDot1 dd ++ "% maximum drawdown indicates high volatility characteristic of aggressive positions"

/-- The `sensitivity` phrase of `_interpret_beta`. -/
def betaSensitivity (beta : ℚ) : String :=
  if beta < 8 / 10 then "below-market volatility"
  else if beta < 12 / 10 then "market-like volatility"
  else "above-market volatility"

/-- `PreferenceEngine._interpret_beta`: branches only on
`self.risk_behavior` and the beta bands 0.8 and 1.2. -/
def interpretBeta (risk_behavior : String) (beta : ℚ) : String :=
  if risk_behavior = "Risk-averse" then
    if beta < 8 / 10 then
      "Beta of " ++ (fmtDot2 beta ++ (" indicates " ++ (betaSensitivity beta ++ ", providing defensive characteristics")))
    else if beta < 12 / 10 then
      "Beta of " ++ (fmtDot2 beta ++ (" indicates " ++ (betaSensitivity beta ++ ", tracking market movements closely")))
    else
      "Beta of " ++ (fmtDot2 beta ++ (" indicates " ++ (betaSensitivity beta ++ ", amplifying market downturns")))
  else
    if beta < 8 / 10 then
      "Beta of " ++ (fmtDot2 beta ++ (" indicates " ++ (betaSensitivity beta ++ ", limiting upside capture potential")))
    else if beta < 12 / 10 then
      "Beta of " ++ (fmtDot2 beta ++ (" indicates " ++ (betaSensitivity beta ++ ", participating in market gains proportionally")))
    else
      "Beta of " ++ (fmtDot2 beta ++ (" indicates " ++ (betaSensitivity beta ++ ", amplifying market upside")))

/-- `PreferenceEngine.interpret_risk_metric`. -/
def interpret_risk_metric (e : PreferenceEngine) (metric_name : String) (value : ℚ) :
    String :=
  if metric_name = "volatility" then interpretVolatility e.risk_tolerance value
  else if metric_name = "drawdown" then interpretDrawdown e.risk_behavior value
  else if metric_name = "beta" then interpretBeta e.risk_behavior value
  else metric_name ++ (": " ++ fmtNum value)

/-! ### query_data_dss.py — retrieval, prompt assembly, tiered generation

External collaborators enter as parameters: the ChromaDB similarity search
as `Option (List RuleDoc)` (`none` models a raised exception), the Ollama
and HuggingFace backends as `Option String` (`none` models unavailability
or a raised exception; for HuggingFace the string is the generated
continuation `generated_text[len(prompt):]`). -/

/-- One retrieved ChromaDB document: `page_content` and the optional
`source` metadata entry. -/
structure RuleDoc where
  page_content : String
  source : Option String
  deriving Repr, DecidableEq

/-- `retrieve_rules` (lines 96-146): empty retrieval and any raised
exception both yield `("", [])`; otherwise the passages are numbered from
1, stripped, joined with blank lines, and paired with their sources
(`metadata.get("source", "Unknown")`). -/
def retrieve_rules : Option (List RuleDoc) → String × List String
  | none => ("", [])
  | some docs =>
    if docs.isEmpty then ("", [])
    else
      (String.intercalate "\n\n" (docs.enum.map fun p =>
        "[Rule " ++ (toString (p.1 + 1) ++ ("] " ++ pyStrip p.2.page_content))),
       docs.map fun d => d.source.getD "Unknown")

/-- The invariant system-instruction block of `build_dss_prompt`. -/
def dss_system_prompt : String :=
  "You are a financial decision support analyst. Your role is to provide structured, objective insights that help users understand investment characteristics and trade-offs—NOT to recommend specific actions.\n\n        CORE PRINCIPLES:\n        1. NEVER recommend \"buy\", \"sell\", or \"hold\"\n        2. EXPLAIN implications and trade-offs, don't make judgments\n        3. HIGHLIGHT alignments and misalignments with user preferences and rules\n        4. FRAME historical data as contextual evidence, not predictions\n        5. MAINTAIN exploratory tone: \"This suggests...\" not \"You should...\"\n        \n        ANALYSIS STRUCTURE:\n        - Synthesize financial data with user preferences and constraints\n        - Identify key considerations relevant to the user's question\n        - Explain trade-offs between different characteristics\n        - Flag any conflicts between stock characteristics and stated rules\n        - Present information in a balanced, informative manner\n        "

/-- The closing instruction block of `build_dss_prompt`. -/
def dss_closing_instructions : String :=
  "INSTRUCTIONS:\n        Provide a comprehensive DSS analysis that:\n        1. Directly addresses the user's question\n        2. Interprets financial data through the lens of their preferences\n        3. Highlights alignment or misalignment with any stated rules\n        4. Explains relevant trade-offs and considerations\n        5. Avoids making recommendations or decisions\n        \n        Your response should help the user understand the investment characteristics and how they relate to their stated preferences and constraints, while leaving the ultimate decision to them.\n        \n        ANALYSIS:\n        "

/-- `build_dss_prompt` (lines 149-201): fixed-order concatenation of the
system block, preference guidance, financial narrative, rules block, user
question and closing instructions. -/
def build_dss_prompt (query financial_context rules_context preference_guidance :
    String) : String :=
  dss_system_prompt ++ ("\n\n        " ++
    (preference_guidance ++ ("\n        \n        FINANCIAL DATA:\n        " ++
      (financial_context ++ ("\n        \n        " ++
        (rules_context ++ ("\n        \n        USER QUESTION:\n        " ++
          (query ++ ("\n        \n        " ++ dss_closing_instructions)))))))))

/-- The `response_parts` list assembled by `generate_structured_fallback`:
fixed opening lines, then every prompt line containing the volatility
marker, then every line containing `"Return"` and `"%"`, then every line
containing `"Sector:"`, each bulleted and stripped, then the fixed closing
lines. -/
def generate_structured_fallback_parts (prompt : String) : List String :=
  let lines := pyLines prompt
  ["DECISION SUPPORT ANALYSIS:", "",
   "Based on the provided financial data and your preferences, here are the key considerations:",
   ""] ++
  (lines.filter fun l => hasSub l "Annualized Volatility:").map
    (fun l => "• " ++ pyStrip l) ++
  (lines.filter fun l => hasSub l "Return" && hasSub l "%").map
    (fun l => "• " ++ pyStrip l) ++
  (lines.filter fun l => hasSub l "Sector:").map
    (fun l => "• " ++ pyStrip l) ++
  ["",
   "This analysis is based on historical data and should be considered alongside your personal investment constraints and risk tolerance.",
   "",
   "For more detailed analysis, please ensure Ollama is running with a language model installed."]

/-- `generate_structured_fallback` (lines 271-309). -/
def generate_structured_fallback (prompt : String) : String :=
  String.intercalate "\n" (generate_structured_fallback_parts prompt)

/-- The HuggingFace tier of `query_llm_with_dss_prompt`: the stripped
continuation is accepted iff longer than 50 characters, else the
deterministic fallback is used.  `none` models an unavailable backend or a
raised exception. -/
def hfOrFallback (hf : Option String) (prompt : String) : String :=
  match hf with
  | some s => if 50 < (pyStrip s).length then pyStrip s else generate_structured_fallback prompt
  | none => generate_structured_fallback prompt

/-- `query_llm_with_dss_prompt` (lines 204-268): Ollama's stripped response
is accepted iff longer than 100 characters; otherwise the HuggingFace tier
is attempted; otherwise the deterministic fallback. -/
def query_llm_with_dss_prompt (ollama hf : Option String) (prompt : String) :
    String :=
  match ollama with
  | some r => if 100 < (pyStrip r).length then pyStrip r else hfOrFallback hf prompt
  | none => hfOrFallback hf prompt

/-- The `PreferenceEngine(...)` construction of `query_financial_dss`
lines 61-65: each axis read from the preferences dict with its fixed
default. -/
def mkPreferenceEngine (preferences : List (String × String)) : PreferenceEngine :=
  { risk_tolerance := (preferences.lookup "risk_tolerance").getD "Medium"
    time_horizon := (preferences.lookup "time_horizon").getD "Long-term (>1yr)"
    risk_behavior := (preferences.lookup "risk_behavior").getD "Risk-averse" }

/-- The control skeleton of `FinancialDataProvider.get_stock_summary`:
`none` when the fetch raised (the `except` branch) or the fetched history
is empty; otherwise the summary dict assembled from the history.  The
assembly itself (lines 40-54), which mixes the metric computations embedded
above with float square roots, is abstracted by `build`. -/
def get_stock_summary (hist : Option (List (ℤ × ℚ)))
    (build : List (ℤ × ℚ) → StockSummary) : Option StockSummary :=
  match hist with
  | none => none
  | some h => if h.isEmpty then none else some (build h)

/-- `query_financial_dss` (lines 33-93).  The outer `Option` is `none` when
an exception escapes to the caller — which in the source can only be the
`KeyError` of `get_prompt_guidance` on preference values outside the frame
dicts; every path through the data-unavailable branch, rule retrieval and
tiered generation is total.  `list(set(sources))` is modelled by
`List.dedup` (Python's set iteration order is unspecified; all claims below
concern the empty list, where the two agree). -/
def query_financial_dss (query_text ticker : String)
    (preferences : List (String × String)) (use_rules : Bool)
    (chroma_exists : Bool) (hist : Option (List (ℤ × ℚ)))
    (build : List (ℤ × ℚ) → StockSummary) (search : Option (List RuleDoc))
    (ollama hf : Option String) :
    Option (String × List String × Option StockSummary) :=
  match get_stock_summary hist build with
  | none =>
    some ("Unable to fetch data for ticker " ++
      (ticker ++ ". Please verify the ticker symbol."), [], none)
  | some summary =>
    match get_prompt_guidance (mkPreferenceEngine preferences) with
    | none => none
    | some guidance =>
      let financial_context := format_for_llm (some summary) preferences
      let rc :=
        if use_rules && chroma_exists then
          let rt := retrieve_rules search
          if rt.1 ≠ "" then
            ("\nRELEVANT RULES AND CONSTRAINTS:\n" ++ (rt.1 ++ "\n"), rt.2)
          else ("", [])
        else ("", [])
      let prompt := build_dss_prompt query_text financial_context rc.1 guidance
      some (query_llm_with_dss_prompt ollama hf prompt, rc.2.dedup, some summary)

/-! ### Statement-side definitions

Definitions used only to state the theorems below. -/

/-- The character at index 2 of a string, used to tell the fixed line
prefixes of the formatter apart. -/
def char2 (s : String) : Option Char := s.data[2]?

/-- The volatility band with boundaries 15 and 25 — the Metrics Engine's
classification bands. -/
def volBand (v : ℚ) : ℕ := if v < 15 then 0 else if v < 25 then 1 else 2

/-- The fixed suffix `_interpret_volatility` appends after the rendered
value, as a table indexed by risk tolerance and volatility band. -/
def volSuffix (t : String) (b : ℕ) : String :=
  if t = "Low" then
    if b = 0 then "% volatility indicates stable, predictable behavior aligned with conservative objectives"
    else if b = 1 then "% volatility suggests price swings that may exceed comfort thresholds for capital preservation"
    else "% volatility represents substantial fluctuation risk unsuitable for conservative portfolios"
  else if t = "High" then
    if b = 0 then "% volatility suggests limited price movement, constraining potential for aggressive returns"
    else if b = 1 then "% volatility provides meaningful opportunity for returns while remaining investable"
    else "% volatility creates significant return potential during favorable market phases"
  else
    if b = 0 then "% volatility indicates low-risk behavior suitable for core holdings"
    else if b = 1 then "% volatility is typical for balanced growth strategies"
    else "% volatility exceeds typical balanced portfolio guidelines"

/-- A concrete summary dict used by the closed witness statements. -/
def sampleSummary : StockSummary :=
  { ticker := "TST"
    period := "1y"
    fetch_date := "2026-01-01"
    basic_info := ⟨"Technology", "Software", 100, 0, "N/A"⟩
    risk_metrics := ⟨20, -10, none, none, "Moderate", 3⟩
    performance := ⟨some 1, some 2, some 5, some 10, some 3⟩
    trends := ⟨"stable", "stable", "near"⟩ }

/-! ### Generic helper lemmas -/

lemma str_ext {s t : String} (h : s.data = t.data) : s = t := by
  cases s; cases t; exact congrArg String.mk h

lemma str_append_cancel {p a b : String} (h : p ++ a = p ++ b) : a = b := by
  have hd : (p ++ a).data = (p ++ b).data := by rw [h]
  rw [String.data_append, String.data_append] at hd
  exact str_ext (List.append_cancel_left hd)

lemma char2_ne {s t : String} (h : char2 s ≠ char2 t) : s ≠ t := by
  intro he; exact h (by rw [he])

lemma char2_append (p x : String) (h : 2 < p.data.length) :
    char2 (p ++ x) = char2 p := by
  simp only [char2, String.data_append]
  exact List.getElem?_append_left h

/-- Two strings with distinct literal prefixes of length at least 3 that
differ at index 2 are distinct. -/
lemma ne_of_prefix_char2 {p q : String} (a b : String)
    (hp : 2 < p.data.length) (hq : 2 < q.data.length)
    (h : char2 p ≠ char2 q) : p ++ a ≠ q ++ b := by
  apply char2_ne
  rw [char2_append p a hp, char2_append q b hq]
  exact h

/-- `String.intercalate.go` extends its accumulator on the right. -/
lemma intercalate_go_eats (s : String) :
    ∀ (l : List String) (acc : String), ∃ t, String.intercalate.go acc s l = acc ++ t := by
  intro l
  induction l with
  | nil => exact fun acc => ⟨"", by simp [String.intercalate.go]⟩
  | cons a as ih =>
    intro acc
    obtain ⟨t, ht⟩ := ih (acc ++ s ++ a)
    refine ⟨s ++ a ++ t, ?_⟩
    show String.intercalate.go (acc ++ s ++ a) s as = _
    rw [ht]
    simp [String.append_assoc]

/-- A joined nonempty list of strings starts with its first element. -/
lemma intercalate_cons_eats (s a : String) (l : List String) :
    ∃ t, String.intercalate s (a :: l) = a ++ t := by
  simpa [String.intercalate] using intercalate_go_eats s l a

/-! ### Claim C10 — preference defaults -/

/-- C10: every preference key missing from the dictionary passed to
`query_financial_dss` is replaced by its fixed default — `risk_tolerance`
by `"Medium"`, `time_horizon` by `"Long-term (>1yr)"`, `risk_behavior` by
`"Risk-averse"` — so the preference engine always receives a value on each
axis; in particular, running the pipeline with an empty preferences
dictionary coincides with running it with the three defaults spelled
out. -/
theorem C10_preference_defaults (preferences : List (String × String)) :
    ((preferences.lookup "risk_tolerance" = none →
        (mkPreferenceEngine preferences).risk_tolerance = "Medium") ∧
      (preferences.lookup "time_horizon" = none →
        (mkPreferenceEngine preferences).time_horizon = "Long-term (>1yr)") ∧
      (preferences.lookup "risk_behavior" = none →
        (mkPreferenceEngine preferences).risk_behavior = "Risk-averse")) ∧
    mkPreferenceEngine [] = ⟨"Medium", "Long-term (>1yr)", "Risk-averse"⟩ ∧
    ∀ qt tick ur ce hist build search ollama hf,
      query_financial_dss qt tick [] ur ce hist build search ollama hf =
        query_financial_dss qt tick
          [("risk_tolerance", "Medium"), ("time_horizon", "Long-term (>1yr)"),
            ("risk_behavior", "Risk-averse")] ur ce hist build search ollama hf := by
  refine ⟨⟨fun h => ?_, fun h => ?_, fun h => ?_⟩, rfl, ?_⟩
  · simp [mkPreferenceEngine, h]
  · simp [mkPreferenceEngine, h]
  · simp [mkPreferenceEngine, h]
  · intro qt tick ur ce hist build search ollama hf
    rfl

/-- Closed instance of `C10_preference_defaults`: the defaults materialise
on the empty dictionary. -/
theorem C10_preference_defaults_witness :
    ([] : List (String × String)).lookup "risk_tolerance" = none ∧
      (mkPreferenceEngine []).risk_tolerance = "Medium" :=
  ⟨rfl, ((C10_preference_defaults []).1.1) rfl⟩

/-! ### Claim C9 — unknown ticker / empty history -/

/-- C9: whenever the fetch fails (`hist = none`, the `except` branch of
`get_stock_summary`) or returns an empty history, `query_financial_dss`
returns the user-facing explanatory message, an empty source list and a
null stock summary, and no exception escapes (the result is `some _`, the
early return preceding every fallible step). -/
theorem C9_data_unavailable (qt tick : String)
    (preferences : List (String × String)) (ur ce : Bool)
    (hist : Option (List (ℤ × ℚ))) (build : List (ℤ × ℚ) → StockSummary)
    (search : Option (List RuleDoc)) (ollama hf : Option String)
    (h : hist = none ∨ hist = some []) :
    query_financial_dss qt tick preferences ur ce hist build search ollama hf =
      some ("Unable to fetch data for ticker " ++
        (tick ++ ". Please verify the ticker symbol."), [], none) := by
  rcases h with rfl | rfl <;> simp [query_financial_dss, get_stock_summary]

/-- Closed instance of `C9_data_unavailable` at an unknown ticker. -/
theorem C9_data_unavailable_witness :
    query_financial_dss "How risky is it?" "ZZZZ" [] true true none
        (fun _ => sampleSummary) none none none =
      some ("Unable to fetch data for ticker " ++
        ("ZZZZ" ++ ". Please verify the ticker symbol."), [], none) :=
  C9_data_unavailable "How risky is it?" "ZZZZ" [] true true none
    (fun _ => sampleSummary) none none none (Or.inl rfl)

/-! ### Claim C8 — absent or empty rule index -/

/-- C8: rule retrieval on an absent index (`none`, the raised-exception
branch) or an empty retrieval returns the empty rules text and the empty
source list without raising, and the absence of rules never fails the
pipeline: whenever a summary was fetched and the stored preferences are
inside the frame dictionaries, `query_financial_dss` still returns a
normal triple whose source list is empty. -/
theorem C8_rules_absent (qt tick : String)
    (preferences : List (String × String)) (ur ce : Bool)
    (hist : Option (List (ℤ × ℚ))) (build : List (ℤ × ℚ) → StockSummary)
    (search : Option (List RuleDoc)) (ollama hf : Option String)
    (summary : StockSummary)
    (hsum : get_stock_summary hist build = some summary)
    (hguid : (get_prompt_guidance (mkPreferenceEngine preferences)).isSome = true)
    (hsearch : search = none ∨ search = some []) :
    retrieve_rules search = ("", []) ∧
    ∃ r, query_financial_dss qt tick preferences ur ce hist build search ollama hf =
      some (r, [], some summary) := by
  have hret : retrieve_rules search = ("", []) := by
    rcases hsearch with rfl | rfl <;> simp [retrieve_rules]
  refine ⟨hret, ?_⟩
  obtain ⟨g, hg⟩ := Option.isSome_iff_exists.1 hguid
  by_cases hb : ur && ce <;>
    simp [query_financial_dss, hsum, hg, hret, hb]

/-- Closed instance of `C8_rules_absent`: empty preferences, a one-point
history and an absent index still produce a sourceless normal triple. -/
theorem C8_rules_absent_witness :
    retrieve_rules none = ("", []) ∧
    ∃ r, query_financial_dss "Does it fit my rules?" "TST" [] true true
        (some [(0, 100)]) (fun _ => sampleSummary) none none none =
      some (r, [], some sampleSummary) :=
  C8_rules_absent "Does it fit my rules?" "TST" [] true true
    (some [(0, 100)]) (fun _ => sampleSummary) none none none sampleSummary
    rfl rfl (Or.inl rfl)

/-! ### Claim C5 — trailing-window returns -/

lemma trailingReturn_none_iff (prices : List ℚ) (days : ℕ) :
    trailingReturn prices days = none ↔ prices.length < days := by
  unfold trailingReturn
  split_ifs with h <;> simp <;> omega

lemma trailingReturn_of_le (prices : List ℚ) (days : ℕ)
    (h : days ≤ prices.length) :
    trailingReturn prices days =
      some (pyRound ((prices.getD (prices.length - 1) 0 /
        prices.getD (prices.length - days) 0 - 1) * 100) 2) := by
  unfold trailingReturn
  rw [if_pos h]

/-- C5: for every price history and every window of the `_compute_performance`
table (21, 63, 126, 252 trading days), the trailing-return field is null
exactly when the history is shorter than the window, and otherwise equals
`(priceNow / priceNDaysAgo - 1) * 100` (stored rounded to two decimals);
no partial-window value is ever produced. -/
theorem C5_trailing_windows (prices : List ℚ) (spy : Option (List ℚ)) :
    ((compute_performance prices spy).return_1m = none ↔ prices.length < 21) ∧
    ((compute_performance prices spy).return_3m = none ↔ prices.length < 63) ∧
    ((compute_performance prices spy).return_6m = none ↔ prices.length < 126) ∧
    ((compute_performance prices spy).return_1y = none ↔ prices.length < 252) ∧
    (21 ≤ prices.length → (compute_performance prices spy).return_1m =
      some (pyRound ((prices.getD (prices.length - 1) 0 /
        prices.getD (prices.length - 21) 0 - 1) * 100) 2)) ∧
    (63 ≤ prices.length → (compute_performance prices spy).return_3m =
      some (pyRound ((prices.getD (prices.length - 1) 0 /
        prices.getD (prices.length - 63) 0 - 1) * 100) 2)) ∧
    (126 ≤ prices.length → (compute_performance prices spy).return_6m =
      some (pyRound ((prices.getD (prices.length - 1) 0 /
        prices.getD (prices.length - 126) 0 - 1) * 100) 2)) ∧
    (252 ≤ prices.length → (compute_performance prices spy).return_1y =
      some (pyRound ((prices.getD (prices.length - 1) 0 /
        prices.getD (prices.length - 252) 0 - 1) * 100) 2)) := by
  refine ⟨?_, ?_, ?_, ?_, fun h => ?_, fun h => ?_, fun h => ?_, fun h => ?_⟩ <;>
    simp only [compute_performance] <;>
    first
      | exact trailingReturn_none_iff prices _
      | exact trailingReturn_of_le prices _ (by assumption)

/-- Closed instance of `C5_trailing_windows` on a 21-day flat history: the
1-month return is computed (zero), the longer windows stay null. -/
theorem C5_trailing_windows_witness :
    21 ≤ (List.replicate 21 (100 : ℚ)).length ∧
    (compute_performance (List.replicate 21 (100 : ℚ)) none).return_1m = some 0 ∧
    (compute_performance (List.replicate 21 (100 : ℚ)) none).return_3m = none := by
  have h21 : 21 ≤ (List.replicate 21 (100 : ℚ)).length := by simp
  refine ⟨h21, ?_, ?_⟩
  · rw [(C5_trailing_windows (List.replicate 21 (100 : ℚ)) none).2.2.2.2.1 h21]
    norm_num [pyRound]
  · rw [(C5_trailing_windows (List.replicate 21 (100 : ℚ)) none).2.1]
    simp

/-! ### Claim C6 — classification bands -/

lemma interpretVolatility_band (t : String) (v : ℚ) :
    interpretVolatility t v = fmtNum v ++ volSuffix t (volBand v) := by
  by_cases h1 : t = "Low" <;> by_cases h2 : t = "High" <;>
    by_cases h3 : v < 15 <;> by_cases h4 : v < 25 <;>
      simp +decide [interpretVolatility, volSuffix, volBand, h1, h2, h3, h4]

/-- C6: the risk classification is `Low` exactly below 15, `Moderate`
exactly on `[15, 25)` and `High` exactly from 25 on (witnessed at 14.99,
15.0, 24.99, 25.0), and the preference interpreter's volatility explainer
depends on the value only through the very same 15/25 bands, for every
risk tolerance. -/
theorem C6_volatility_bands :
    (∀ v : ℚ,
      (riskClassOfVol v = "Low" ↔ v < 15) ∧
      (riskClassOfVol v = "Moderate" ↔ 15 ≤ v ∧ v < 25) ∧
      (riskClassOfVol v = "High" ↔ 25 ≤ v)) ∧
    riskClassOfVol (1499 / 100) = "Low" ∧
    riskClassOfVol 15 = "Moderate" ∧
    riskClassOfVol (2499 / 100) = "Moderate" ∧
    riskClassOfVol 25 = "High" ∧
    (∀ (t : String) (v : ℚ),
      interpretVolatility t v = fmtNum v ++ volSuffix t (volBand v)) := by
  refine ⟨fun v => ?_, by norm_num [riskClassOfVol], by norm_num [riskClassOfVol],
    by norm_num [riskClassOfVol], by norm_num [riskClassOfVol],
    interpretVolatility_band⟩
  unfold riskClassOfVol
  split_ifs with h1 h2 <;>
    refine ⟨⟨fun hh => ?_, fun hh => ?_⟩, ⟨fun hh => ?_, fun hh => ?_⟩,
      ⟨fun hh => ?_, fun hh => ?_⟩⟩ <;>
    first
      | rfl
      | assumption
      | exact absurd hh (by decide)
      | exact absurd hh h1
      | exact absurd hh.2 h2
      | exact ⟨not_lt.1 h1, h2⟩
      | exact not_lt.1 h2
      | (exfalso; linarith [hh.1])
      | (exfalso; linarith)

/-! ### Claim C3 — tolerance-sensitivity of the per-metric explainers -/

/-- C3 counterexample: two preference vectors that differ only in risk
tolerance produce the very same sentence for the drawdown metric, because
`_interpret_drawdown` branches on `risk_behavior` alone. -/
theorem C3_counterexample :
    (PreferenceEngine.mk "Low" "Long-term (>1yr)" "Risk-averse").risk_tolerance ≠
      (PreferenceEngine.mk "High" "Long-term (>1yr)" "Risk-averse").risk_tolerance ∧
    (PreferenceEngine.mk "Low" "Long-term (>1yr)" "Risk-averse").time_horizon =
      (PreferenceEngine.mk "High" "Long-term (>1yr)" "Risk-averse").time_horizon ∧
    (PreferenceEngine.mk "Low" "Long-term (>1yr)" "Risk-averse").risk_behavior =
      (PreferenceEngine.mk "High" "Long-term (>1yr)" "Risk-averse").risk_behavior ∧
    interpret_risk_metric ⟨"Low", "Long-term (>1yr)", "Risk-averse"⟩ "drawdown" 5 =
      interpret_risk_metric ⟨"High", "Long-term (>1yr)", "Risk-averse"⟩ "drawdown" 5 := by
  exact ⟨by decide, rfl, rfl, rfl⟩

/-- C3 as amended: under two preference vectors that agree on time horizon
and risk behavior and differ in risk tolerance (both drawn from the valid
tolerance set), the `volatility` explainer always produces two textually
distinct sentences, while the `drawdown` and `beta` explainers — which
read only `risk_behavior` — produce identical sentences. -/
theorem C3_explainer_tolerance (t1 t2 h b : String) (v : ℚ)
    (ht1 : t1 = "Low" ∨ t1 = "Medium" ∨ t1 = "High")
    (ht2 : t2 = "Low" ∨ t2 = "Medium" ∨ t2 = "High")
    (hne : t1 ≠ t2) :
    interpret_risk_metric ⟨t1, h, b⟩ "volatility" v ≠
      interpret_risk_metric ⟨t2, h, b⟩ "volatility" v ∧
    interpret_risk_metric ⟨t1, h, b⟩ "drawdown" v =
      interpret_risk_metric ⟨t2, h, b⟩ "drawdown" v ∧
    interpret_risk_metric ⟨t1, h, b⟩ "beta" v =
      interpret_risk_metric ⟨t2, h, b⟩ "beta" v := by
  refine ⟨?_, rfl, rfl⟩
  show interpretVolatility t1 v ≠ interpretVolatility t2 v
  rw [interpretVolatility_band, interpretVolatility_band]
  intro heq
  have hsuf := str_append_cancel heq
  rcases ht1 with rfl | rfl | rfl <;> rcases ht2 with rfl | rfl | rfl <;>
    first
      | exact hne rfl
      | (unfold volBand at hsuf; split_ifs at hsuf <;> exact absurd hsuf (by decide))

/-- Closed instance of `C3_explainer_tolerance` at tolerances Low/High and
volatility 20. -/
theorem C3_explainer_tolerance_witness :
    interpret_risk_metric ⟨"Low", "Long-term (>1yr)", "Risk-averse"⟩ "volatility" 20 ≠
      interpret_risk_metric ⟨"High", "Long-term (>1yr)", "Risk-averse"⟩ "volatility" 20 ∧
    interpret_risk_metric ⟨"Low", "Long-term (>1yr)", "Risk-averse"⟩ "drawdown" 20 =
      interpret_risk_metric ⟨"High", "Long-term (>1yr)", "Risk-averse"⟩ "drawdown" 20 ∧
    interpret_risk_metric ⟨"Low", "Long-term (>1yr)", "Risk-averse"⟩ "beta" 20 =
      interpret_risk_metric ⟨"High", "Long-term (>1yr)", "Risk-averse"⟩ "beta" 20 :=
  C3_explainer_tolerance "Low" "High" "Long-term (>1yr)" "Risk-averse" 20
    (Or.inl rfl) (Or.inr (Or.inr rfl)) (by decide)

/-! ### Claim C2 — beta -/

/-- C2 counterexample: with a benchmark whose aligned returns have zero
variance, the stored beta is `1.0`, not null — the source's
`else 1.0` branch, contradicting "null if … variance is zero". -/
theorem C2_counterexample :
    npVar (alignedPair (pctChangeDated [(0, 100), (1, 110), (2, 121)])
      (pctChangeDated [(0, 10), (1, 10), (2, 10)])).2 = 0 ∧
    (compute_risk_metrics [(0, 100), (1, 110), (2, 121)]
      (some [(0, 10), (1, 10), (2, 10)])).beta = some 1 := by
  have hmr : pctChangeDated [((0 : ℤ), (10 : ℚ)), (1, 10), (2, 10)] =
      [(1, 0), (2, 0)] := by
    norm_num [pctChangeDated]
  have hsr : pctChangeDated [((0 : ℤ), (100 : ℚ)), (1, 110), (2, 121)] =
      [(1, 1 / 10), (2, 1 / 10)] := by
    norm_num [pctChangeDated]
  have hal : alignedPair [((1 : ℤ), (1 / 10 : ℚ)), (2, 1 / 10)] [(1, 0), (2, 0)] =
      ([1 / 10, 1 / 10], [0, 0]) := by
    simp +decide [alignedPair, reindexDropna, List.lookup]
  have hv : npVar [(0 : ℚ), 0] = 0 := by
    norm_num [npVar, pyMean]
  constructor
  · rw [hmr, hsr, hal, hv]
  · have hraw : betaRawOf (pctChangeDated [((0 : ℤ), (100 : ℚ)), (1, 110), (2, 121)])
        [(0, 10), (1, 10), (2, 10)] = 1 := by
      rw [betaRawOf, hmr, hsr, hal, hv]
      norm_num
    have hone : pyRound 1 2 = 1 := by norm_num [pyRound]
    simp [compute_risk_metrics, betaField, hraw, hone]

/-- C2 as amended: the stored beta of `_compute_risk_metrics` is null
exactly when the benchmark fetch failed or when the computed ratio is
exactly zero (Python truthiness of `round(beta, 2) if beta else None`);
when the benchmark is available with zero aligned variance the stored beta
is `1.0` (the `else 1.0` branch), and with positive variance and nonzero
ratio it is `covariance / variance` over the date-aligned intersection,
rounded to two decimals. -/
theorem C2_beta_field (hist : List (ℤ × ℚ)) (spyClose : List (ℤ × ℚ)) :
    (compute_risk_metrics hist none).beta = none ∧
    (npVar (alignedPair (pctChangeDated hist) (pctChangeDated spyClose)).2 = 0 →
      (compute_risk_metrics hist (some spyClose)).beta = some 1) ∧
    (npVar (alignedPair (pctChangeDated hist) (pctChangeDated spyClose)).2 > 0 →
      npCov (alignedPair (pctChangeDated hist) (pctChangeDated spyClose)).1
          (alignedPair (pctChangeDated hist) (pctChangeDated spyClose)).2 /
        npVar (alignedPair (pctChangeDated hist) (pctChangeDated spyClose)).2 ≠ 0 →
      (compute_risk_metrics hist (some spyClose)).beta =
        some (pyRound
          (npCov (alignedPair (pctChangeDated hist) (pctChangeDated spyClose)).1
              (alignedPair (pctChangeDated hist) (pctChangeDated spyClose)).2 /
            npVar (alignedPair (pctChangeDated hist) (pctChangeDated spyClose)).2) 2)) ∧
    (npVar (alignedPair (pctChangeDated hist) (pctChangeDated spyClose)).2 > 0 →
      npCov (alignedPair (pctChangeDated hist) (pctChangeDated spyClose)).1
          (alignedPair (pctChangeDated hist) (pctChangeDated spyClose)).2 /
        npVar (alignedPair (pctChangeDated hist) (pctChangeDated spyClose)).2 = 0 →
      (compute_risk_metrics hist (some spyClose)).beta = none) := by
  refine ⟨by simp [compute_risk_metrics, betaField], fun hv => ?_, fun hv hnz => ?_,
    fun hv hz => ?_⟩
  · have hraw : betaRawOf (pctChangeDated hist) spyClose = 1 := by
      simp [betaRawOf, hv]
    have hone : pyRound 1 2 = 1 := by norm_num [pyRound]
    simp [compute_risk_metrics, betaField, hraw, hone]
  · have hraw : betaRawOf (pctChangeDated hist) spyClose =
        npCov (alignedPair (pctChangeDated hist) (pctChangeDated spyClose)).1
            (alignedPair (pctChangeDated hist) (pctChangeDated spyClose)).2 /
          npVar (alignedPair (pctChangeDated hist) (pctChangeDated spyClose)).2 := by
      simp [betaRawOf, if_pos hv]
    simp [compute_risk_metrics, betaField, hraw, hnz]
  · have hraw : betaRawOf (pctChangeDated hist) spyClose =
        npCov (alignedPair (pctChangeDated hist) (pctChangeDated spyClose)).1
            (alignedPair (pctChangeDated hist) (pctChangeDated spyClose)).2 /
          npVar (alignedPair (pctChangeDated hist) (pctChangeDated spyClose)).2 := by
      simp [betaRawOf, if_pos hv]
    simp [compute_risk_metrics, betaField, hraw, hz]

/-- Closed instance of `C2_beta_field`: the zero-variance branch on the
constant benchmark of the counterexample. -/
theorem C2_beta_field_witness :
    npVar (alignedPair (pctChangeDated [((0 : ℤ), (100 : ℚ)), (1, 110), (2, 121)])
      (pctChangeDated [((0 : ℤ), (10 : ℚ)), (1, 10), (2, 10)])).2 = 0 ∧
    (compute_risk_metrics [((0 : ℤ), (100 : ℚ)), (1, 110), (2, 121)]
      (some [((0 : ℤ), (10 : ℚ)), (1, 10), (2, 10)])).beta = some 1 := by
  have hv : npVar (alignedPair
      (pctChangeDated [((0 : ℤ), (100 : ℚ)), (1, 110), (2, 121)])
      (pctChangeDated [((0 : ℤ), (10 : ℚ)), (1, 10), (2, 10)])).2 = 0 := by
    have hmr : pctChangeDated [((0 : ℤ), (10 : ℚ)), (1, 10), (2, 10)] =
        [(1, 0), (2, 0)] := by
      norm_num [pctChangeDated]
    have hsr : pctChangeDated [((0 : ℤ), (100 : ℚ)), (1, 110), (2, 121)] =
        [(1, 1 / 10), (2, 1 / 10)] := by
      norm_num [pctChangeDated]
    rw [hmr, hsr]
    have hal : alignedPair [((1 : ℤ), (1 / 10 : ℚ)), (2, 1 / 10)] [(1, 0), (2, 0)] =
        ([1 / 10, 1 / 10], [0, 0]) := by
      simp +decide [alignedPair, reindexDropna, List.lookup]
    rw [hal]
    norm_num [npVar, pyMean]
  exact ⟨hv, ((C2_beta_field [((0 : ℤ), (100 : ℚ)), (1, 110), (2, 121)]
    [((0 : ℤ), (10 : ℚ)), (1, 10), (2, 10)]).2.1) hv⟩

/-! ### Claim C4 — volatility and insufficient data -/

lemma pctChangeDated_length (s : List (ℤ × ℚ)) :
    (pctChangeDated s).length = s.length - 1 := by
  simp [pctChangeDated]

/-- C4 counterexample: on a one-point history (and likewise on a two-point
history, which yields a single return whose sample standard deviation is
`NaN`), `_compute_risk_metrics` does not fail with any error — no
`InsufficientData` exception exists in the source — but returns a dict
whose volatility is `NaN` (`none`) and whose risk classification is
`"High"` (both `NaN < 15` and `NaN < 25` are false). -/
theorem C4_counterexample :
    compute_risk_metrics [(0, 100)] none =
      { volatilitySq := none, max_drawdown := none, beta := none,
        avg_recovery_days := none, risk_classification := "High",
        sharp_moves_count := 0 } ∧
    (compute_risk_metrics [(0, 100), (1, 110)] none).volatilitySq = none := by
  exact ⟨rfl, rfl⟩

/-- C4 as amended: the metrics computation is total — it never raises; for
a (positively priced) history with fewer than 3 points, i.e. fewer than 2
daily returns, the volatility is `NaN` (`none`) and the summary is still
produced with risk classification `"High"`; for at least 3 points the
squared annualized volatility equals the sample variance of the daily
percentage returns times `252 · 100²`. -/
theorem C4_volatility (hist : List (ℤ × ℚ)) (spy : Option (List (ℤ × ℚ)))
    (hpos : ∀ p ∈ hist, 0 < p.2) :
    ((compute_risk_metrics hist spy).volatilitySq = none ↔ hist.length < 3) ∧
    (hist.length < 3 →
      (compute_risk_metrics hist spy).risk_classification = "High") ∧
    (3 ≤ hist.length →
      (compute_risk_metrics hist spy).volatilitySq =
        some ((((pctChangeDated hist).map Prod.snd).map
            (fun x => (x - pyMean ((pctChangeDated hist).map Prod.snd)) ^ 2)).sum /
          ((((pctChangeDated hist).map Prod.snd).length : ℚ) - 1) * 252 * 10000)) := by
  have hL : (pctChangeDated hist).length = hist.length - 1 := pctChangeDated_length hist
  refine ⟨?_, fun h3 => ?_, fun h3 => ?_⟩
  · simp only [compute_risk_metrics, volatilitySq, sampleVar, List.length_map]
    split_ifs with h
    · have hx : hist.length < 3 := by omega
      simp [hx]
    · have hx : ¬ hist.length < 3 := by omega
      simp [hx]
  · have hlt : (pctChangeDated hist).length < 2 := by omega
    simp [compute_risk_metrics, riskClassOfVolSq, volatilitySq, sampleVar,
      List.length_map, hlt]
  · have hge : ¬ (pctChangeDated hist).length < 2 := by omega
    simp [compute_risk_metrics, volatilitySq, sampleVar, List.length_map, hge]

/-- Closed instance of `C4_volatility` on a four-point flat history: the
squared volatility is defined and equals zero. -/
theorem C4_volatility_witness :
    3 ≤ ([((0 : ℤ), (100 : ℚ)), (1, 100), (2, 100), (3, 100)]).length ∧
    (compute_risk_metrics [((0 : ℤ), (100 : ℚ)), (1, 100), (2, 100), (3, 100)]
      none).volatilitySq = some 0 := by
  have h3 : 3 ≤ ([((0 : ℤ), (100 : ℚ)), (1, 100), (2, 100), (3, 100)]).length := by
    simp
  refine ⟨h3, ?_⟩
  rw [(C4_volatility [((0 : ℤ), (100 : ℚ)), (1, 100), (2, 100), (3, 100)] none
    (by norm_num)).2.2 h3]
  norm_num [pctChangeDated, pyMean]

/-! ### Claim C7 — tiered generation and the deterministic fallback -/

lemma generate_structured_fallback_head (prompt : String) :
    ∃ t, generate_structured_fallback prompt = "DECISION SUPPORT ANALYSIS:" ++ t := by
  exact intercalate_cons_eats "\n" "DECISION SUPPORT ANALYSIS:" _

lemma generate_structured_fallback_ne_empty (prompt : String) :
    generate_structured_fallback prompt ≠ "" := by
  obtain ⟨t, ht⟩ := generate_structured_fallback_head prompt
  rw [ht]
  intro he
  have hd : ("DECISION SUPPORT ANALYSIS:" ++ t).data = ("" : String).data := by
    rw [he]
  rw [String.data_append] at hd
  have := List.append_eq_nil.1 hd
  exact absurd this.1 (by decide)

/-- C7: when the primary backend's stripped response does not exceed 100
characters (or the backend is unavailable) and the secondary's stripped
continuation does not exceed 50 characters (or it is unavailable), the
deterministic fallback is returned; that fallback is always a non-empty
string, and whenever some prompt line carries the volatility fact marker,
the corresponding bulleted fact line appears among the fallback's response
parts. -/
theorem C7_tiered_fallback (ollama hf : Option String) (prompt : String)
    (h1 : ∀ r, ollama = some r → (pyStrip r).length ≤ 100)
    (h2 : ∀ s, hf = some s → (pyStrip s).length ≤ 50) :
    query_llm_with_dss_prompt ollama hf prompt = generate_structured_fallback prompt ∧
    generate_structured_fallback prompt ≠ "" ∧
    ((∃ line ∈ pyLines prompt, hasSub line "Annualized Volatility:" = true) →
      ∃ line ∈ pyLines prompt, hasSub line "Annualized Volatility:" = true ∧
        ("• " ++ pyStrip line) ∈ generate_structured_fallback_parts prompt) := by
  refine ⟨?_, generate_structured_fallback_ne_empty prompt, ?_⟩
  · have hsec : hfOrFallback hf prompt = generate_structured_fallback prompt := by
      cases hf with
      | none => rfl
      | some s =>
        have := h2 s rfl
        simp [hfOrFallback, Nat.not_lt.2 this]
    cases ollama with
    | none => simpa [query_llm_with_dss_prompt] using hsec
    | some r =>
      have := h1 r rfl
      simpa [query_llm_with_dss_prompt, Nat.not_lt.2 this] using hsec
  · rintro ⟨line, hmem, hmark⟩
    refine ⟨line, hmem, hmark, ?_⟩
    have hv : ("• " ++ pyStrip line) ∈
        ((pyLines prompt).filter fun l => hasSub l "Annualized Volatility:").map
          (fun l => "• " ++ pyStrip l) :=
      List.mem_map.2 ⟨line, List.mem_filter.2 ⟨hmem, hmark⟩, rfl⟩
    simp only [generate_structured_fallback_parts, List.append_assoc, List.mem_append]
    simp only [List.mem_cons, List.not_mem_nil]
    tauto

/-- Closed instance of `C7_tiered_fallback`: a too-short primary response,
an unavailable secondary, and a prompt consisting of one volatility fact
line. -/
theorem C7_tiered_fallback_witness :
    query_llm_with_dss_prompt (some "short") none
        "  Annualized Volatility: 22.1% (Moderate risk)" =
      generate_structured_fallback "  Annualized Volatility: 22.1% (Moderate risk)" ∧
    generate_structured_fallback "  Annualized Volatility: 22.1% (Moderate risk)" ≠ "" ∧
    ∃ line ∈ pyLines "  Annualized Volatility: 22.1% (Moderate risk)",
      hasSub line "Annualized Volatility:" = true ∧
        ("• " ++ pyStrip line) ∈ generate_structured_fallback_parts
          "  Annualized Volatility: 22.1% (Moderate risk)" := by
  have h := C7_tiered_fallback (some "short") none
    "  Annualized Volatility: 22.1% (Moderate risk)"
    (fun r hr => by cases hr; decide) (fun s hs => by cases hs)
  refine ⟨h.1, h.2.1, h.2.2 ?_⟩
  refine ⟨"  Annualized Volatility: 22.1% (Moderate risk)", ?_, by decide⟩
  decide

/-! ### Claim C1 — the formatter's line inventory -/

lemma mem_optLine {o : Option ℚ} {f : ℚ → String} {l : String} :
    l ∈ optLine o f ↔ ∃ v, o = some v ∧ l = f v := by
  cases o <;> simp [optLine]

lemma mem_truthyQLine {o : Option ℚ} {f : ℚ → String} {l : String} :
    l ∈ truthyQLine o f ↔ ∃ v, o = some v ∧ v ≠ 0 ∧ l = f v := by
  cases o with
  | none => simp [truthyQLine]
  | some v =>
    simp only [truthyQLine]
    split_ifs with h
    · simp [h]
    · simp [h]

lemma mem_truthyZLine {o : Option ℤ} {f : ℤ → String} {l : String} :
    l ∈ truthyZLine o f ↔ ∃ v, o = some v ∧ v ≠ 0 ∧ l = f v := by
  cases o with
  | none => simp [truthyZLine]
  | some v =>
    simp only [truthyZLine]
    split_ifs with h
    · simp [h]
    · simp [h]

lemma char2_headerSections {s : StockSummary} {l : String}
    (h : l ∈ headerSections s) : char2 l ≠ some '6' := by
  simp only [headerSections, List.mem_cons, List.not_mem_nil, or_false] at h
  rcases h with rfl | rfl <;> rw [char2_append _ _ (by decide)] <;> decide

lemma char2_basicSections {b : BasicInfo} {l : String}
    (h : l ∈ basicSections b) : char2 l ≠ some '6' := by
  simp only [basicSections, List.mem_append, List.mem_cons, List.not_mem_nil,
    or_false] at h
  rcases h with ((rfl | rfl | rfl | rfl) | hdiv) | rfl
  · decide
  · rw [char2_append _ _ (by decide)]; decide
  · rw [char2_append _ _ (by decide)]; decide
  · rw [char2_append _ _ (by decide)]; decide
  · have hd : l = "  Dividend Yield: " ++ (fmtNum b.dividend_yield ++ "%") := by
      split_ifs at hdiv with hc
      · simpa using hdiv
      · simp at hdiv
    subst hd
    rw [char2_append _ _ (by decide)]; decide
  · decide

lemma char2_riskSections {r : RiskView} {rt : String} {l : String}
    (h : l ∈ riskSections r rt) : char2 l ≠ some '6' := by
  simp only [riskSections, List.mem_append, List.mem_cons, List.not_mem_nil,
    or_false, mem_truthyQLine, mem_truthyZLine] at h
  rcases h with (((rfl | rfl | rfl | rfl) | ⟨v, _, _, rfl⟩) | ⟨d, _, _, rfl⟩) | rfl | rfl
  · decide
  · rw [char2_append _ _ (by decide)]; decide
  · rw [char2_append _ _ (by decide)]; decide
  · rw [char2_append _ _ (by decide)]; decide
  · rw [char2_append _ _ (by decide)]; decide
  · rw [char2_append _ _ (by decide)]; decide
  · rw [char2_append _ _ (by decide)]; decide
  · decide

lemma char2_perfSections {p : PerfOut} {l : String}
    (h : l ∈ perfSections p) : char2 l ≠ some '6' := by
  simp only [perfSections, List.mem_append, List.mem_cons, List.not_mem_nil,
    or_false, mem_optLine] at h
  rcases h with ((((rfl | ⟨v, _, rfl⟩) | ⟨v, _, rfl⟩) | ⟨v, _, rfl⟩) | ⟨v, _, rfl⟩) | rfl
  · decide
  · rw [char2_append _ _ (by decide)]; decide
  · rw [char2_append _ _ (by decide)]; decide
  · rw [char2_append _ _ (by decide)]; decide
  · rw [char2_append _ _ (by decide)]; decide
  · decide

lemma char2_trendSections {t : TrendOut} {l : String}
    (h : l ∈ trendSections t) : char2 l ≠ some '6' := by
  simp only [trendSections, List.mem_cons, List.not_mem_nil, or_false] at h
  rcases h with rfl | rfl | rfl | rfl
  · decide
  · rw [char2_append _ _ (by decide)]; decide
  · rw [char2_append _ _ (by decide)]; decide
  · rw [char2_append _ _ (by decide)]; decide

/-- Every line the formatter emits has a fixed prefix whose third character
is never `'6'`. -/
lemma char2_format_sections (s : StockSummary) (preferences : List (String × String)) :
    ∀ l ∈ format_sections s preferences, char2 l ≠ some '6' := by
  intro l h
  simp only [format_sections, List.mem_append] at h
  rcases h with (((h | h) | h) | h) | h
  · exact char2_headerSections h
  · exact char2_basicSections h
  · exact char2_riskSections h
  · exact char2_perfSections h
  · exact char2_trendSections h

/-- C1 counterexample: a summary whose 6-month trailing return is computed
and non-null (`5`), yet `format_for_llm` emits no 6-month line at all —
the formatter renders the 1-month, 3-month and 1-year returns and skips
`return_6m` entirely. -/
theorem C1_counterexample :
    sampleSummary.performance.return_6m = some 5 ∧
    ("  6-Month Return: " ++ (fmtPlus2 5 ++ "%")) ∉
      format_sections sampleSummary [] := by
  refine ⟨rfl, fun h => ?_⟩
  exact char2_format_sections sampleSummary [] _ h
    (by rw [char2_append _ _ (by decide)]; decide)

/-- C1 as amended: the narrative contains a line for each non-null
1-month, 3-month, 1-year and vs-S&P-500 metric; the beta and
average-recovery lines appear whenever the stored value is non-null and
non-zero (Python truthiness of `if risk['beta']:`); the 6-month trailing
return, although computed and stored, is never rendered, whatever its
value. -/
theorem C1_formatter_lines (s : StockSummary) (preferences : List (String × String)) :
    (∀ v, s.performance.return_1m = some v →
      ("  1-Month Return: " ++ (fmtPlus2 v ++ "%")) ∈ format_sections s preferences) ∧
    (∀ v, s.performance.return_3m = some v →
      ("  3-Month Return: " ++ (fmtPlus2 v ++ "%")) ∈ format_sections s preferences) ∧
    (∀ v, s.performance.return_1y = some v →
      ("  1-Year Return: " ++ (fmtPlus2 v ++ "%")) ∈ format_sections s preferences) ∧
    (∀ v, s.performance.vs_sp500_1y = some v →
      ("  vs. S&P 500: " ++ ((if v > 0 then "outperformed" else "underperformed") ++
        (" by " ++ (fmtDot2 |v| ++ "%")))) ∈ format_sections s preferences) ∧
    (∀ b, s.risk_metrics.beta = some b → b ≠ 0 →
      ("  Beta (market sensitivity): " ++ fmtNum b) ∈ format_sections s preferences) ∧
    (∀ d, s.risk_metrics.avg_recovery_days = some d → d ≠ 0 →
      ("  Average Recovery Time: " ++ (toString d ++ " days")) ∈
        format_sections s preferences) ∧
    (∀ x, ("  6-Month Return: " ++ x) ∉ format_sections s preferences) := by
  refine ⟨fun v hv => ?_, fun v hv => ?_, fun v hv => ?_, fun v hv => ?_,
    fun b hb hbz => ?_, fun d hd hdz => ?_, fun x hx => ?_⟩
  · simp [format_sections, perfSections, mem_optLine, hv]
  · simp [format_sections, perfSections, mem_optLine, hv]
  · simp [format_sections, perfSections, mem_optLine, hv]
  · simp [format_sections, perfSections, mem_optLine, hv]
  · simp [format_sections, riskSections, mem_truthyQLine, hb, hbz]
  · simp [format_sections, riskSections, mem_truthyZLine, hd, hdz]
  · exact char2_format_sections s preferences _ hx
      (by rw [char2_append _ _ (by decide)]; decide)

/-- Closed instance of `C1_formatter_lines` on `sampleSummary`: the
1-month line is present. -/
theorem C1_formatter_lines_witness :
    ("  1-Month Return: " ++ (fmtPlus2 1 ++ "%")) ∈
      format_sections sampleSummary [] :=
  (C1_formatter_lines sampleSummary []).1 1 rfl

end FinDSS
